import Mathlib

/-!
Shallow embedding of the authentication/authorization core of the
`one-system` backend (`src/backend/app/core/config.py`,
`src/backend/app/core/security.py`, `src/backend/app/core/rbac.py`,
and the dev-header middleware in `src/backend/app/main.py`).

Modelling conventions:
  * Python strings are `String`; `None`-able values are `Option`.
  * Database rows are a `List User` in the order the database would
    return them; `.scalars().first()` on a filtered select is
    `List.find?` with the filter predicate.
  * Wall/monotonic clock instants are `Int` (seconds).
  * Cryptography is abstracted: a JWK is identified by its key
    material (a `String`); a token's signature verifies under exactly
    the key material recorded in its `sigKey` field, and a token whose
    body is structurally broken has `sigKey = none`.
  * Network I/O of the JWKS fetch is a `FetchResult` input; the number
    of fetches performed is recorded in the outcome so that
    cache-effect claims can be stated.
-/

set_option autoImplicit false

deriving instance DecidableEq for Except

namespace OneSystem

/-- Subset of `Settings` (config.py) that the auth core reads. -/
structure Settings where
  environment : String
  dev_skip_auth : Bool
  aws_region : String
  cognito_user_pool_id : String
  cognito_app_client_id : String
  jwks_cache_ttl : Int
deriving DecidableEq, Repr

/-- Python `str.lower()`: character-wise lowercasing. Identical to
`String.toLower` (`String.map Char.toLower`) but stated on the
character list so that it evaluates inside the kernel. -/
def strLower (s : String) : String := ⟨s.data.map Char.toLower⟩

/-- `Settings.is_development` (config.py line 99). -/
def Settings.is_development (s : Settings) : Bool :=
  strLower s.environment == "development"

/-- `Settings.auth_disabled` (config.py line 103): development AND explicit opt-in. -/
def Settings.auth_disabled (s : Settings) : Bool :=
  s.is_development && s.dev_skip_auth

/-- `Settings.cognito_configured` (config.py line 108): Python truthiness of
`bool(pool_id and client_id)`, i.e. both strings non-empty. -/
def Settings.cognito_configured (s : Settings) : Bool :=
  s.cognito_user_pool_id != "" && s.cognito_app_client_id != ""

/-- The allowed values of `validate_environment` (config.py line 162). -/
def validEnvironment (e : String) : Bool :=
  strLower e == "development" || strLower e == "staging" || strLower e == "production"

/-- A row of the `users` table (models/user.py); `cognito_user_id` is
`nullable=False`, `email` is nullable. `id` abstracts the UUID,
`created_at` the timestamp. -/
structure User where
  id : Nat
  cognito_user_id : String
  full_name : String
  email : Option String
  role : String
  is_active : Bool
  created_at : Int
deriving DecidableEq, Repr

/-- Decoded JWT payload: the claim dict of a Cognito token.
`.get` of a possibly-absent claim is `Option`. -/
structure Payload where
  sub : Option String
  iss : Option String
  token_use : Option String
  exp : Int
deriving DecidableEq, Repr

/-- Abstract bearer token. `headerParses` is whether
`jwt.get_unverified_header` succeeds; `kid` is the declared key id in
the header (absent gives `none`); `sigKey` is the key material the
signature actually verifies under (`none` for a structurally broken
body); `payload` the embedded claims. -/
structure Token where
  headerParses : Bool
  kid : Option String
  sigKey : Option String
  payload : Payload
deriving DecidableEq, Repr

/-- A JWKS: insertion-ordered list of (kid, key material) pairs. -/
abbrev KeySet := List (String × String)

/-- Python-dict lookup over an insertion list: later duplicates of a
key override earlier ones (`{k["kid"]: k for k in keys}` semantics). -/
def dictGet (l : KeySet) (k : String) : Option String :=
  (l.reverse.find? (fun p => p.1 == k)).map (·.2)

/-- Lookup of the declared `kid` in the key set; `kid` may be absent
(`None not in jwks` is true in Python, so absence is never found). -/
def kidLookup (jwks : KeySet) (kid : Option String) : Option String :=
  kid.bind (dictGet jwks)

/-- Expected issuer string (security.py line 95). -/
def expectedIssuer (s : Settings) : String :=
  "https://cognito-idp." ++ s.aws_region ++ ".amazonaws.com/" ++ s.cognito_user_pool_id

/-- The distinct failure kinds of `_verify_cognito_jwt`, one per raise
site (security.py lines 85, 89, 105, 107, 110, 113); all map to HTTP 401. -/
inductive VerifyError where
  | MalformedToken
  | UnknownKey
  | Expired
  | VerificationFailed
  | WrongIssuer
  | WrongTokenUse
deriving DecidableEq, Repr

/-- `_verify_cognito_jwt` (security.py lines 77-115). `jwt.decode`
verifies the signature first (any signature/structural failure is a
generic `JWTError`), then the `exp` claim (`ExpiredSignatureError`,
raised when `exp < now`); the issuer and `token_use` claims are
compared afterwards by the function itself. -/
def verify_cognito_jwt (s : Settings) (now : Int) (token : Token) (jwks : KeySet) :
    Except VerifyError Payload :=
  if !token.headerParses then
    .error .MalformedToken
  else
    match kidLookup jwks token.kid with
    | none => .error .UnknownKey
    | some key =>
      if token.sigKey ≠ some key then
        .error .VerificationFailed
      else if token.payload.exp < now then
        .error .Expired
      else if token.payload.iss ≠ some (expectedIssuer s) then
        .error .WrongIssuer
      else if token.payload.token_use ≠ some "access" then
        .error .WrongTokenUse
      else
        .ok token.payload

/-- Module-level JWKS cache state: `_jwks_cache` and `_jwks_fetched_at`
(security.py lines 36-37). Process start is `⟨[], 0⟩`. -/
structure JwksState where
  cache : KeySet
  fetchedAt : Int
deriving DecidableEq, Repr

/-- Result of the one possible network round trip inside `_get_jwks`:
either the provider's published key list, or any exception (HTTP error,
timeout, bad JSON). -/
inductive FetchResult where
  | success (keys : KeySet)
  | failure
deriving DecidableEq, Repr

/-- The 503 raised by `_get_jwks` when the fetch fails with nothing cached. -/
inductive JwksError where
  | ServiceUnavailable
deriving DecidableEq, Repr

/-- What one `_get_jwks` call produced: its return (or raise), the cache
state it leaves behind, and how many network fetches it performed. -/
structure JwksOutcome where
  result : Except JwksError KeySet
  newState : JwksState
  fetches : Nat
deriving DecidableEq, Repr

/-- `_get_jwks` (security.py lines 40-74) as a pure state transformer.
The cached mapping is returned when it is non-empty (`if _jwks_cache`)
and younger than the TTL; an unconfigured provider yields `{}` without
network access; otherwise one fetch happens: on success the cache and
timestamp are replaced, on failure a non-empty cache is returned stale
(state untouched) and an empty one raises 503. -/
def get_jwks (s : Settings) (st : JwksState) (now : Int) (net : FetchResult) : JwksOutcome :=
  if st.cache ≠ [] ∧ now - st.fetchedAt < s.jwks_cache_ttl then
    { result := .ok st.cache, newState := st, fetches := 0 }
  else if !s.cognito_configured then
    { result := .ok [], newState := st, fetches := 0 }
  else
    match net with
    | .success keys =>
        { result := .ok keys, newState := { cache := keys, fetchedAt := now }, fetches := 1 }
    | .failure =>
        if st.cache ≠ [] then
          { result := .ok st.cache, newState := st, fetches := 1 }
        else
          { result := .error .ServiceUnavailable, newState := st, fetches := 1 }

/-- The distinct failure kinds of `get_current_user`, one per raise site,
plus the propagated verifier failures. `NotAuthenticated` is the 401
"Not authenticated" (security.py line 160), `AuthNotConfigured` the 503
at line 167, `JwksUnavailable` the 503 propagated from `_get_jwks`,
`NoDevUser` the 401 at line 151, `UserNotFoundOrInactive` the 401 at
line 180, `Forbidden` the 403 of `require_role` (rbac.py line 26). -/
inductive AuthError where
  | NotAuthenticated
  | AuthNotConfigured
  | JwksUnavailable
  | TokenInvalid (e : VerifyError)
  | NoDevUser
  | UserNotFoundOrInactive
  | Forbidden (roles : List String)
deriving DecidableEq, Repr

/-- HTTP status each auth failure is surfaced with. -/
def AuthError.status : AuthError → Nat
  | .AuthNotConfigured => 503
  | .JwksUnavailable => 503
  | .Forbidden _ => 403
  | _ => 401

/-- What one `get_current_user` call produced: the resolved user or the
HTTPException raised, the JWKS cache state left behind, and the number
of network fetches performed during the call. -/
structure AuthOutcome where
  result : Except AuthError User
  jwksState : JwksState
  fetches : Nat
deriving DecidableEq, Repr

/-- The dev-branch user lookup of `get_current_user` (security.py lines
138-147): `if cognito_sub:` is Python truthiness, so an absent context
value and the empty string both take the admin-fallback query.
`select(...).first()` / `select(...).limit(1)` return the first row of
the database ordering that matches the filter, with no `ORDER BY`. -/
def devLookup (devSub : Option String) (db : List User) : Option User :=
  match devSub with
  | some sub =>
      if sub ≠ "" then
        db.find? (fun u => u.cognito_user_id == sub)
      else
        db.find? (fun u => u.role == "ADMIN" && u.is_active)
  | none => db.find? (fun u => u.role == "ADMIN" && u.is_active)

/-- The production tail of `get_current_user` (security.py lines
173-186), entered once a token is present and Cognito is configured:
fetch the JWKS through the cache, verify the token, look the subject up
in the users table and reject missing or inactive users. -/
def prodResolve (s : Settings) (tok : Token) (db : List User) (st : JwksState)
    (now : Int) (net : FetchResult) : AuthOutcome :=
  match (get_jwks s st now net).result with
  | .error .ServiceUnavailable =>
      { result := .error .JwksUnavailable, jwksState := (get_jwks s st now net).newState
        fetches := (get_jwks s st now net).fetches }
  | .ok jwks =>
    match verify_cognito_jwt s now tok jwks with
    | .error e =>
        { result := .error (.TokenInvalid e), jwksState := (get_jwks s st now net).newState
          fetches := (get_jwks s st now net).fetches }
    | .ok payload =>
      match payload.sub.bind (fun sub => db.find? (fun u => u.cognito_user_id == sub)) with
      | some u =>
          if u.is_active then
            { result := .ok u, jwksState := (get_jwks s st now net).newState
              fetches := (get_jwks s st now net).fetches }
          else
            { result := .error .UserNotFoundOrInactive
              jwksState := (get_jwks s st now net).newState
              fetches := (get_jwks s st now net).fetches }
      | none =>
          { result := .error .UserNotFoundOrInactive
            jwksState := (get_jwks s st now net).newState
            fetches := (get_jwks s st now net).fetches }

/-- `get_current_user` (security.py lines 118-186). `devSub` is the
context variable set by `dev_auth_middleware` in main.py from the
`X-Dev-User-ID` header (`none` when the header is absent); `token` is
what `oauth2_scheme` extracted from the Authorization header; `db` is
the users table in database row order; `st`, `now`, `net` feed the
JWKS cache exactly as in `get_jwks`. -/
def get_current_user (s : Settings) (devSub : Option String) (token : Option Token)
    (db : List User) (st : JwksState) (now : Int) (net : FetchResult) : AuthOutcome :=
  if s.auth_disabled then
    match devLookup devSub db with
    | some u => { result := .ok u, jwksState := st, fetches := 0 }
    | none => { result := .error .NoDevUser, jwksState := st, fetches := 0 }
  else
    match token with
    | none => { result := .error .NotAuthenticated, jwksState := st, fetches := 0 }
    | some tok =>
      if !s.cognito_configured then
        { result := .error .AuthNotConfigured, jwksState := st, fetches := 0 }
      else
        prodResolve s tok db st now net

/-- `require_role(*roles)` (rbac.py lines 18-32) applied to the result
of the `get_current_user` dependency: a dependency failure propagates
as the raised exception; otherwise `if roles and current_user.role not
in roles:` raises 403 carrying the role list, else the user passes. -/
def require_role (roles : List String) (resolution : Except AuthError User) :
    Except AuthError User :=
  match resolution with
  | .error e => .error e
  | .ok u =>
      if roles ≠ [] ∧ u.role ∉ roles then
        .error (.Forbidden roles)
      else
        .ok u

/-!
### Concrete fixtures

Used by witnesses and counterexamples: a development configuration with
the bypass flag on, a production configuration with the flag (abnormally)
on, some user rows and tokens.
-/

/-- Development settings with `DEV_SKIP_AUTH=true`. -/
def devSettings : Settings :=
  { environment := "development", dev_skip_auth := true, aws_region := "r"
    cognito_user_pool_id := "pool", cognito_app_client_id := "client", jwks_cache_ttl := 86400 }

/-- Production settings where the bypass flag is (abnormally) true. -/
def prodSettings : Settings :=
  { environment := "production", dev_skip_auth := true, aws_region := "r"
    cognito_user_pool_id := "pool", cognito_app_client_id := "client", jwks_cache_ttl := 86400 }

/-- An active admin created at time 5 (first database row in fixtures). -/
def admin1 : User :=
  { id := 1, cognito_user_id := "sub-a1", full_name := "Admin One", email := none
    role := "ADMIN", is_active := true, created_at := 5 }

/-- An active admin created later, at time 10. -/
def admin2 : User :=
  { id := 2, cognito_user_id := "sub-a2", full_name := "Admin Two", email := none
    role := "ADMIN", is_active := true, created_at := 10 }

/-- A deactivated user. -/
def inactiveUser : User :=
  { id := 3, cognito_user_id := "sub-i", full_name := "Off Duty", email := none
    role := "OFFICER", is_active := false, created_at := 7 }

/-- A well-formed token signed by key material `m1` under kid `k1`,
issued by the expected issuer, `token_use=access`, expiring at 1000. -/
def goodToken : Token :=
  { headerParses := true, kid := some "k1", sigKey := some "m1"
    payload := { sub := some "sub-a1", iss := some (expectedIssuer prodSettings)
                 token_use := some "access", exp := 1000 } }

/-- A token like `goodToken` but declaring kid `k2`, which the fixture
key set does not contain. -/
def unknownKidToken : Token :=
  { goodToken with kid := some "k2" }

/-- The fixture key set: kid `k1` with key material `m1`. -/
def jwksK1 : KeySet := [("k1", "m1")]

/-- The empty initial cache state (process start). -/
def st0 : JwksState := { cache := [], fetchedAt := 0 }

/-- A cache state holding `jwksK1` fetched at time 0. -/
def stK1 : JwksState := { cache := jwksK1, fetchedAt := 0 }

/-- A token whose header does not parse. -/
def malformedToken : Token := { goodToken with headerParses := false }

/-- A token declaring kid `k1` but signed under other key material. -/
def wrongSigToken : Token := { goodToken with sigKey := some "m2" }

/-- A token issued by a foreign issuer. -/
def wrongIssuerToken : Token :=
  { goodToken with payload := { goodToken.payload with iss := some "https://accounts.example.com" } }

/-- An otherwise-valid ID token (`token_use = "id"`). -/
def idUseToken : Token :=
  { goodToken with payload := { goodToken.payload with token_use := some "id" } }

/-- All six verification steps of `_verify_cognito_jwt` passing: the
header parses, the declared kid resolves to key material the signature
verifies under, the token is unexpired, carries the expected issuer and
`token_use = "access"`. -/
def verifySteps (s : Settings) (now : Int) (tok : Token) (jwks : KeySet) : Prop :=
  tok.headerParses = true ∧
  ∃ km, kidLookup jwks tok.kid = some km ∧ tok.sigKey = some km ∧
    ¬ tok.payload.exp < now ∧ tok.payload.iss = some (expectedIssuer s) ∧
    tok.payload.token_use = some "access"

/-! ### Helper lemmas about the token verifier -/

lemma verify_malformed (s : Settings) (now : Int) (tok : Token) (jwks : KeySet)
    (h : tok.headerParses = false) :
    verify_cognito_jwt s now tok jwks = .error .MalformedToken := by
  unfold verify_cognito_jwt
  simp [h]

lemma verify_unknownKey (s : Settings) (now : Int) (tok : Token) (jwks : KeySet)
    (h1 : tok.headerParses = true) (h2 : kidLookup jwks tok.kid = none) :
    verify_cognito_jwt s now tok jwks = .error .UnknownKey := by
  unfold verify_cognito_jwt
  rw [h1, h2]
  rfl

lemma verify_sigFail (s : Settings) (now : Int) (tok : Token) (jwks : KeySet) (km : String)
    (h1 : tok.headerParses = true) (h2 : kidLookup jwks tok.kid = some km)
    (h3 : tok.sigKey ≠ some km) :
    verify_cognito_jwt s now tok jwks = .error .VerificationFailed := by
  unfold verify_cognito_jwt
  rw [h1, h2]
  simp [h3]

lemma verify_expired (s : Settings) (now : Int) (tok : Token) (jwks : KeySet) (km : String)
    (h1 : tok.headerParses = true) (h2 : kidLookup jwks tok.kid = some km)
    (h3 : tok.sigKey = some km) (h4 : tok.payload.exp < now) :
    verify_cognito_jwt s now tok jwks = .error .Expired := by
  unfold verify_cognito_jwt
  rw [h1, h2]
  simp [h3, h4]

lemma verify_wrongIssuer (s : Settings) (now : Int) (tok : Token) (jwks : KeySet) (km : String)
    (h1 : tok.headerParses = true) (h2 : kidLookup jwks tok.kid = some km)
    (h3 : tok.sigKey = some km) (h4 : ¬ tok.payload.exp < now)
    (h5 : tok.payload.iss ≠ some (expectedIssuer s)) :
    verify_cognito_jwt s now tok jwks = .error .WrongIssuer := by
  unfold verify_cognito_jwt
  rw [h1, h2]
  simp [h3, h4, h5]

lemma verify_wrongUse (s : Settings) (now : Int) (tok : Token) (jwks : KeySet) (km : String)
    (h1 : tok.headerParses = true) (h2 : kidLookup jwks tok.kid = some km)
    (h3 : tok.sigKey = some km) (h4 : ¬ tok.payload.exp < now)
    (h5 : tok.payload.iss = some (expectedIssuer s))
    (h6 : tok.payload.token_use ≠ some "access") :
    verify_cognito_jwt s now tok jwks = .error .WrongTokenUse := by
  unfold verify_cognito_jwt
  rw [h1, h2]
  simp [h3, h4, h5, h6]

lemma verify_ok_of_steps (s : Settings) (now : Int) (tok : Token) (jwks : KeySet) (km : String)
    (h1 : tok.headerParses = true) (h2 : kidLookup jwks tok.kid = some km)
    (h3 : tok.sigKey = some km) (h4 : ¬ tok.payload.exp < now)
    (h5 : tok.payload.iss = some (expectedIssuer s))
    (h6 : tok.payload.token_use = some "access") :
    verify_cognito_jwt s now tok jwks = .ok tok.payload := by
  unfold verify_cognito_jwt
  rw [h1, h2]
  simp [h3, h4, h5, h6]

/-- C3: for every token whose signature verifies under the key
identified by its declared key id present in the key set, that is
unexpired, whose issuer equals the issuer built from the configured
region and pool identifiers, and whose `token_use` claim equals
"access", `_verify_cognito_jwt` succeeds and the returned claims carry
the token's embedded subject unchanged. -/
theorem verify_valid_token_ok (s : Settings) (now : Int) (tok : Token) (jwks : KeySet)
    (km : String)
    (hHeader : tok.headerParses = true)
    (hKid : kidLookup jwks tok.kid = some km)
    (hSig : tok.sigKey = some km)
    (hExp : ¬ tok.payload.exp < now)
    (hIss : tok.payload.iss = some (expectedIssuer s))
    (hUse : tok.payload.token_use = some "access") :
    verify_cognito_jwt s now tok jwks = .ok tok.payload ∧
    ∃ p, verify_cognito_jwt s now tok jwks = .ok p ∧ p.sub = tok.payload.sub := by
  have h := verify_ok_of_steps s now tok jwks km hHeader hKid hSig hExp hIss hUse
  exact ⟨h, tok.payload, h, rfl⟩

/-- Witness for C3: a concrete well-formed token against the fixture
key set verifies and returns its own payload, subject included. -/
theorem verify_valid_token_ok_witness :
    verify_cognito_jwt prodSettings 500 goodToken jwksK1 = .ok goodToken.payload ∧
    goodToken.payload.sub = some "sub-a1" := by
  refine ⟨(verify_valid_token_ok prodSettings 500 goodToken jwksK1 "m1"
    rfl (by decide) rfl (by decide) rfl rfl).1, rfl⟩

/-- C4: `_verify_cognito_jwt` short-circuits on the first failing step
in the fixed order — unparsable header, then unknown kid (regardless of
claim content), then signature/structural failure, with expiry by wall
clock distinguished as `Expired`, then issuer mismatch, then wrong
`token_use` — and it fails with one of these kinds iff some step
fails. -/
theorem verify_error_order (s : Settings) (now : Int) (tok : Token) (jwks : KeySet) :
    (tok.headerParses = false →
      verify_cognito_jwt s now tok jwks = .error .MalformedToken) ∧
    (tok.headerParses = true → kidLookup jwks tok.kid = none →
      verify_cognito_jwt s now tok jwks = .error .UnknownKey) ∧
    (∀ km, tok.headerParses = true → kidLookup jwks tok.kid = some km →
      tok.sigKey ≠ some km →
      verify_cognito_jwt s now tok jwks = .error .VerificationFailed) ∧
    (∀ km, tok.headerParses = true → kidLookup jwks tok.kid = some km →
      tok.sigKey = some km → tok.payload.exp < now →
      verify_cognito_jwt s now tok jwks = .error .Expired) ∧
    (∀ km, tok.headerParses = true → kidLookup jwks tok.kid = some km →
      tok.sigKey = some km → ¬ tok.payload.exp < now →
      tok.payload.iss ≠ some (expectedIssuer s) →
      verify_cognito_jwt s now tok jwks = .error .WrongIssuer) ∧
    (∀ km, tok.headerParses = true → kidLookup jwks tok.kid = some km →
      tok.sigKey = some km → ¬ tok.payload.exp < now →
      tok.payload.iss = some (expectedIssuer s) →
      tok.payload.token_use ≠ some "access" →
      verify_cognito_jwt s now tok jwks = .error .WrongTokenUse) ∧
    ((∃ e, verify_cognito_jwt s now tok jwks = .error e) ↔
      ¬ verifySteps s now tok jwks) := by
  refine ⟨verify_malformed s now tok jwks,
          verify_unknownKey s now tok jwks,
          fun km => verify_sigFail s now tok jwks km,
          fun km => verify_expired s now tok jwks km,
          fun km => verify_wrongIssuer s now tok jwks km,
          fun km => verify_wrongUse s now tok jwks km, ?_, ?_⟩
  · rintro ⟨e, he⟩ ⟨h1, km, h2, h3, h4, h5, h6⟩
    rw [verify_ok_of_steps s now tok jwks km h1 h2 h3 h4 h5 h6] at he
    exact Except.noConfusion he
  · intro hns
    rcases hb : tok.headerParses with _ | _
    · exact ⟨.MalformedToken, verify_malformed s now tok jwks hb⟩
    · rcases hk : kidLookup jwks tok.kid with _ | km
      · exact ⟨.UnknownKey, verify_unknownKey s now tok jwks hb hk⟩
      · by_cases hs : tok.sigKey = some km
        · by_cases he : tok.payload.exp < now
          · exact ⟨.Expired, verify_expired s now tok jwks km hb hk hs he⟩
          · by_cases hi : tok.payload.iss = some (expectedIssuer s)
            · by_cases hu : tok.payload.token_use = some "access"
              · exact absurd ⟨hb, km, hk, hs, he, hi, hu⟩ hns
              · exact ⟨.WrongTokenUse, verify_wrongUse s now tok jwks km hb hk hs he hi hu⟩
            · exact ⟨.WrongIssuer, verify_wrongIssuer s now tok jwks km hb hk hs he hi⟩
        · exact ⟨.VerificationFailed, verify_sigFail s now tok jwks km hb hk hs⟩

/-- Witness for C4: each failure kind is produced at a concrete input
through the order theorem. -/
theorem verify_error_order_witness :
    verify_cognito_jwt prodSettings 500 malformedToken jwksK1 = .error .MalformedToken ∧
    verify_cognito_jwt prodSettings 500 unknownKidToken jwksK1 = .error .UnknownKey ∧
    verify_cognito_jwt prodSettings 500 wrongSigToken jwksK1 = .error .VerificationFailed ∧
    verify_cognito_jwt prodSettings 2000 goodToken jwksK1 = .error .Expired ∧
    verify_cognito_jwt prodSettings 500 wrongIssuerToken jwksK1 = .error .WrongIssuer ∧
    verify_cognito_jwt prodSettings 500 idUseToken jwksK1 = .error .WrongTokenUse := by
  refine ⟨(verify_error_order prodSettings 500 malformedToken jwksK1).1 rfl,
          (verify_error_order prodSettings 500 unknownKidToken jwksK1).2.1 rfl (by decide),
          (verify_error_order prodSettings 500 wrongSigToken jwksK1).2.2.1 "m1" rfl
            (by decide) (by decide),
          (verify_error_order prodSettings 2000 goodToken jwksK1).2.2.2.1 "m1" rfl
            (by decide) rfl (by decide),
          (verify_error_order prodSettings 500 wrongIssuerToken jwksK1).2.2.2.2.1 "m1" rfl
            (by decide) rfl (by decide) (by decide),
          (verify_error_order prodSettings 500 idUseToken jwksK1).2.2.2.2.2.1 "m1" rfl
            (by decide) rfl (by decide) rfl (by decide)⟩

/-- C1: with `environment = "production"`, the development bypass has no
effect — `auth_disabled` is false no matter how `dev_skip_auth` is set,
the outcome is independent of both the flag and the override header
value, and an absent bearer token fails with the 401 "Not
authenticated". -/
theorem prod_ignores_dev_bypass (s : Settings) (hs : s.environment = "production")
    (b : Bool) (devSub devSub' : Option String) (token : Option Token) (db : List User)
    (st : JwksState) (now : Int) (net : FetchResult) :
    Settings.auth_disabled { s with dev_skip_auth := b } = false ∧
    get_current_user { s with dev_skip_auth := b } devSub token db st now net =
      get_current_user s devSub' token db st now net ∧
    (token = none →
      (get_current_user { s with dev_skip_auth := b } devSub token db st now net).result =
        .error .NotAuthenticated) := by
  have hp : (strLower "production" == "development") = false := by decide
  have hd : ∀ b' : Bool, Settings.auth_disabled { s with dev_skip_auth := b' } = false := by
    intro b'
    simp [Settings.auth_disabled, Settings.is_development, hs, hp]
  have hd2 : Settings.auth_disabled s = false := by
    simp [Settings.auth_disabled, Settings.is_development, hs, hp]
  refine ⟨hd b, ?_, ?_⟩
  · simp only [get_current_user, hd b, hd2]
    rfl
  · intro ht
    subst ht
    simp [get_current_user, hd b]

/-- Witness for C1: production settings with the bypass flag true and an
override header present still fail without a token. -/
theorem prod_ignores_dev_bypass_witness :
    (get_current_user prodSettings (some "sub-a1") none [admin1] st0 0 .failure).result =
      .error .NotAuthenticated :=
  (prod_ignores_dev_bypass prodSettings rfl true (some "sub-a1") (some "x") none [admin1]
    st0 0 .failure).2.2 rfl

/-- C9: the guard built by `require_role`: with no roles it returns the
resolution result unchanged (authentication only); with roles it
propagates resolution failures unchanged, rejects an identity whose
role is outside the set with 403 `Forbidden` carrying the role list,
and passes an identity whose role is in the set. -/
theorem require_role_gate (roles : List String) (res : Except AuthError User) :
    (roles = [] → require_role roles res = res) ∧
    (∀ e, res = .error e → require_role roles res = .error e) ∧
    (∀ u, res = .ok u → roles ≠ [] → u.role ∉ roles →
      require_role roles res = .error (.Forbidden roles)) ∧
    (∀ u, res = .ok u → u.role ∈ roles → require_role roles res = .ok u) := by
  refine ⟨?_, ?_, ?_, ?_⟩
  · intro h
    subst h
    cases res with
    | error e => rfl
    | ok u => simp [require_role]
  · intro e h
    subst h
    rfl
  · intro u h hne hnm
    subst h
    simp [require_role, hne, hnm]
  · intro u h hm
    subst h
    have hcond : ¬(roles ≠ [] ∧ u.role ∉ roles) := fun hc => hc.2 hm
    simp [require_role, hcond]

/-- Witness for C9: each clause of the guard theorem at concrete inputs:
empty role set passes an OFFICER through, failures propagate, an ADMIN
gate rejects an OFFICER with `Forbidden ["ADMIN"]` and passes an admin. -/
theorem require_role_gate_witness :
    require_role [] (.ok inactiveUser) = .ok inactiveUser ∧
    require_role ["ADMIN"] (.error .NotAuthenticated) = .error .NotAuthenticated ∧
    require_role ["ADMIN"] (.ok inactiveUser) = .error (.Forbidden ["ADMIN"]) ∧
    require_role ["ADMIN"] (.ok admin1) = .ok admin1 := by
  refine ⟨(require_role_gate [] (.ok inactiveUser)).1 rfl,
          (require_role_gate ["ADMIN"] (.error .NotAuthenticated)).2.1 .NotAuthenticated rfl,
          (require_role_gate ["ADMIN"] (.ok inactiveUser)).2.2.1 inactiveUser rfl
            (by decide) (by decide),
          (require_role_gate ["ADMIN"] (.ok admin1)).2.2.2 admin1 rfl (by decide)⟩

/-- C10: in development-bypass mode an override header carrying the
empty string is treated exactly like an absent header — the same
outcome, via the admin-fallback query rather than a lookup with an
empty `cognito_user_id`. -/
theorem dev_empty_override_header (s : Settings) (hd : s.auth_disabled = true)
    (token : Option Token) (db : List User) (st : JwksState) (now : Int)
    (net : FetchResult) :
    get_current_user s (some "") token db st now net =
      get_current_user s none token db st now net ∧
    devLookup (some "") db = db.find? (fun u => u.role == "ADMIN" && u.is_active) := by
  constructor
  · simp [get_current_user, hd, devLookup]
  · simp [devLookup]

/-- Witness for C10: with an inactive non-admin first row, the empty
header resolves exactly like the absent header (to the fallback admin). -/
theorem dev_empty_override_header_witness :
    get_current_user devSettings (some "") none [inactiveUser, admin1] st0 0 .failure =
      get_current_user devSettings none none [inactiveUser, admin1] st0 0 .failure ∧
    (get_current_user devSettings (some "") none [inactiveUser, admin1] st0 0 .failure).result =
      .ok admin1 := by
  refine ⟨(dev_empty_override_header devSettings (by decide) none [inactiveUser, admin1]
    st0 0 .failure).1, by decide⟩

/-- Shared: a call of `_get_jwks` whose cache cannot be served fresh
(empty, or TTL elapsed) performs exactly one network fetch when the
provider is configured. -/
lemma get_jwks_fetches_one (s : Settings) (st : JwksState) (now : Int) (net : FetchResult)
    (h : ¬(st.cache ≠ [] ∧ now - st.fetchedAt < s.jwks_cache_ttl))
    (hc : s.cognito_configured = true) :
    (get_jwks s st now net).fetches = 1 := by
  unfold get_jwks
  rw [if_neg h]
  simp only [hc, Bool.not_true]
  cases net with
  | success keys => rfl
  | failure =>
    by_cases hcc : st.cache ≠ [] <;> simp [hcc]

/-- C6: when the remote fetch fails, `_get_jwks` returns the previously
cached key set unchanged (even expired) instead of raising; with no key
set ever cached it raises the 503 ServiceUnavailable, which
`get_current_user` surfaces with status 503, not 401. In both failure
cases the cache state is left unchanged. -/
theorem jwks_fetch_failure_fallback (s : Settings) (st : JwksState) (now : Int)
    (hc : s.cognito_configured = true)
    (hmiss : ¬(st.cache ≠ [] ∧ now - st.fetchedAt < s.jwks_cache_ttl)) :
    (st.cache ≠ [] →
      get_jwks s st now .failure =
        { result := .ok st.cache, newState := st, fetches := 1 }) ∧
    (st.cache = [] →
      get_jwks s st now .failure =
        { result := .error .ServiceUnavailable, newState := st, fetches := 1 }) ∧
    AuthError.status .JwksUnavailable = 503 ∧
    AuthError.status .JwksUnavailable ≠ 401 := by
  refine ⟨?_, ?_, rfl, by decide⟩
  · intro h
    unfold get_jwks
    rw [if_neg hmiss]
    simp [hc, h]
  · intro h
    unfold get_jwks
    rw [if_neg hmiss]
    simp [hc, h]

/-- Witness for C6: a stale non-empty cache is served unchanged on fetch
failure; an empty cache raises 503, leaving the state unchanged. -/
theorem jwks_fetch_failure_fallback_witness :
    get_jwks prodSettings stK1 86400 .failure =
      { result := .ok jwksK1, newState := stK1, fetches := 1 } ∧
    get_jwks prodSettings st0 5 .failure =
      { result := .error .ServiceUnavailable, newState := st0, fetches := 1 } := by
  refine ⟨(jwks_fetch_failure_fallback prodSettings stK1 86400 (by decide) (by decide)).1
            (by decide),
          (jwks_fetch_failure_fallback prodSettings st0 5 (by decide) (by decide)).2.1 rfl⟩

/-- Counterexample to C7: a successful fetch that returned zero keys is
not served from cache afterwards — the next call, though made while the
cached (empty) key set is younger than the TTL, performs another fetch
(`if _jwks_cache` requires a non-empty dict). -/
theorem jwks_empty_keyset_refetch :
    (get_jwks prodSettings st0 0 (.success [])).result = .ok [] ∧
    (get_jwks prodSettings st0 0 (.success [])).fetches = 1 ∧
    (1 : Int) - ((get_jwks prodSettings st0 0 (.success [])).newState).fetchedAt <
      prodSettings.jwks_cache_ttl ∧
    (get_jwks prodSettings ((get_jwks prodSettings st0 0 (.success [])).newState) 1
      (.success [])).fetches = 1 := by decide

/-- C7 as amended: a *non-empty* cached key set younger than the TTL is
returned unchanged with no network fetch; when the cache cannot be
served fresh (and the provider is configured), the call performs
exactly one new fetch. -/
theorem jwks_cache_ttl_amended (s : Settings) (st : JwksState) (now : Int)
    (net : FetchResult) :
    (st.cache ≠ [] → now - st.fetchedAt < s.jwks_cache_ttl →
      get_jwks s st now net = { result := .ok st.cache, newState := st, fetches := 0 }) ∧
    (¬(st.cache ≠ [] ∧ now - st.fetchedAt < s.jwks_cache_ttl) → s.cognito_configured = true →
      (get_jwks s st now net).fetches = 1) := by
  constructor
  · intro h1 h2
    unfold get_jwks
    rw [if_pos ⟨h1, h2⟩]
  · intro h hc
    exact get_jwks_fetches_one s st now net h hc

/-- Witness for C7 (amended): a fresh non-empty cache is served with no
fetch; after the TTL has elapsed the next call fetches exactly once. -/
theorem jwks_cache_ttl_amended_witness :
    get_jwks prodSettings stK1 10 .failure =
      { result := .ok jwksK1, newState := stK1, fetches := 0 } ∧
    (get_jwks prodSettings stK1 86400 (.success jwksK1)).fetches = 1 := by
  refine ⟨(jwks_cache_ttl_amended prodSettings stK1 10 .failure).1 (by decide) (by decide),
          (jwks_cache_ttl_amended prodSettings stK1 86400 (.success jwksK1)).2
            (by decide) (by decide)⟩

/-- Shared: every branch of the production tail reports the fetch count
of its `_get_jwks` call. -/
lemma prodResolve_fetches (s : Settings) (tok : Token) (db : List User) (st : JwksState)
    (now : Int) (net : FetchResult) :
    (prodResolve s tok db st now net).fetches = (get_jwks s st now net).fetches := by
  unfold prodResolve
  split
  · rfl
  · split
    · rfl
    · split
      · split <;> rfl
      · rfl

/-- Shared: a user returned by the production tail passed the
`is_active` check. -/
lemma prodResolve_ok_active (s : Settings) (tok : Token) (db : List User) (st : JwksState)
    (now : Int) (net : FetchResult) (u : User)
    (hr : (prodResolve s tok db st now net).result = .ok u) :
    u.is_active = true := by
  unfold prodResolve at hr
  split at hr
  · simp at hr
  · split at hr
    · simp at hr
    · split at hr
      · rename_i u' hfind
        split at hr
        · rename_i hact
          simp at hr
          rw [← hr]
          exact hact
        · simp at hr
      · simp at hr

/-- Shared: the dev branch of `get_current_user`, made explicit. -/
lemma gcu_dev (s : Settings) (devSub : Option String) (token : Option Token) (db : List User)
    (st : JwksState) (now : Int) (net : FetchResult) (hd : s.auth_disabled = true) :
    get_current_user s devSub token db st now net =
      match devLookup devSub db with
      | some u => { result := .ok u, jwksState := st, fetches := 0 }
      | none => { result := .error .NoDevUser, jwksState := st, fetches := 0 } := by
  simp [get_current_user, hd]

/-- Shared: with the bypass off, a token present and Cognito configured,
`get_current_user` is the production tail. -/
lemma gcu_prod (s : Settings) (devSub : Option String) (token : Option Token) (db : List User)
    (st : JwksState) (now : Int) (net : FetchResult) (hd : s.auth_disabled = false)
    (tok : Token) (ht : token = some tok) (hc : s.cognito_configured = true) :
    get_current_user s devSub token db st now net = prodResolve s tok db st now net := by
  subst ht
  simp [get_current_user, hd, hc]

/-- Counterexample to C2: in development-bypass mode an override header
naming an inactive user resolves successfully to that inactive user —
the dev-override lookup has no `is_active` filter. -/
theorem dev_override_returns_inactive :
    (get_current_user devSettings (some "sub-i") none [inactiveUser] st0 0 .failure).result =
      .ok inactiveUser ∧
    inactiveUser.is_active = false := by decide

/-- C2 as amended: on the production-token path and on the dev
admin-fallback branch (override header absent or empty), every
successfully resolved identity is active; only the dev override-lookup
branch can return an inactive user. -/
theorem resolved_identity_active_amended (s : Settings) (devSub : Option String)
    (token : Option Token) (db : List User) (st : JwksState) (now : Int) (net : FetchResult)
    (h : s.auth_disabled = false ∨ devSub = none ∨ devSub = some "")
    (u : User)
    (hr : (get_current_user s devSub token db st now net).result = .ok u) :
    u.is_active = true := by
  by_cases hd : s.auth_disabled = true
  · have hsub : devSub = none ∨ devSub = some "" := by
      rcases h with h | h | h
      · rw [hd] at h
        exact absurd h (by simp)
      · exact Or.inl h
      · exact Or.inr h
    have hdl : devLookup devSub db = db.find? (fun v => v.role == "ADMIN" && v.is_active) := by
      rcases hsub with h' | h' <;> subst h' <;> simp [devLookup]
    rw [gcu_dev s devSub token db st now net hd, hdl] at hr
    rcases hf : db.find? (fun v => v.role == "ADMIN" && v.is_active) with _ | u'
    · rw [hf] at hr
      simp at hr
    · rw [hf] at hr
      simp at hr
      have hp := List.find?_some hf
      rw [hr] at hp
      simp [Bool.and_eq_true] at hp
      exact hp.2
  · have hd' : s.auth_disabled = false := by simpa using hd
    rcases token with _ | tok
    · simp [get_current_user, hd'] at hr
    · by_cases hc : s.cognito_configured = true
      · rw [gcu_prod s devSub _ db st now net hd' tok rfl hc] at hr
        exact prodResolve_ok_active s tok db st now net u hr
      · have hc' : s.cognito_configured = false := by simpa using hc
        simp [get_current_user, hd', hc'] at hr

/-- Witness for C2 (amended): the admin fallback resolves to an active
admin. -/
theorem resolved_identity_active_amended_witness :
    (get_current_user devSettings none none [admin1] st0 0 .failure).result = .ok admin1 ∧
    admin1.is_active = true := by
  refine ⟨by decide, resolved_identity_active_amended devSettings none none [admin1] st0 0
    .failure (Or.inr (Or.inl rfl)) admin1 (by decide)⟩

/-- Shared: a `TokenInvalid` outcome comes from the production tail, so
Cognito was configured and the call's fetch count is that of its
`_get_jwks` call. -/
lemma gcu_tokenInvalid_fetches (s : Settings) (devSub : Option String) (token : Option Token)
    (db : List User) (st : JwksState) (now : Int) (net : FetchResult) (e : VerifyError)
    (hr : (get_current_user s devSub token db st now net).result = .error (.TokenInvalid e)) :
    s.cognito_configured = true ∧
    (get_current_user s devSub token db st now net).fetches = (get_jwks s st now net).fetches := by
  by_cases hd : s.auth_disabled = true
  · rw [gcu_dev s devSub token db st now net hd] at hr
    rcases hf : devLookup devSub db with _ | u' <;> rw [hf] at hr <;> simp at hr
  · have hd' : s.auth_disabled = false := by simpa using hd
    rcases token with _ | tok
    · simp [get_current_user, hd'] at hr
    · by_cases hc : s.cognito_configured = true
      · rw [gcu_prod s devSub _ db st now net hd' tok rfl hc] at hr ⊢
        exact ⟨hc, prodResolve_fetches s tok db st now net⟩
      · have hc' : s.cognito_configured = false := by simpa using hc
        simp [get_current_user, hd', hc'] at hr

/-- Counterexample to C5: a token whose kid is absent from a non-empty,
within-TTL cache is rejected with `UnknownKey` without any fetch being
attempted in that request. -/
theorem unknownKey_from_fresh_cache_no_fetch :
    (get_current_user prodSettings none (some unknownKidToken) [admin1] stK1 10
      .failure).result = .error (.TokenInvalid .UnknownKey) ∧
    (get_current_user prodSettings none (some unknownKidToken) [admin1] stK1 10
      .failure).fetches = 0 ∧
    stK1.cache ≠ [] ∧
    (10 : Int) - stK1.fetchedAt < prodSettings.jwks_cache_ttl := by decide

/-- C5 as amended: a cache refresh is attempted within the request
exactly when the cached key set cannot be served fresh — whenever the
request fails with `UnknownKey` while the cache was empty
(never refreshed) or its TTL had elapsed, exactly one fetch was
performed first; a kid absent from a within-TTL non-empty cache is
reported without a new fetch. -/
theorem refresh_before_unknownKey_amended (s : Settings) (devSub : Option String)
    (token : Option Token) (db : List User) (st : JwksState) (now : Int) (net : FetchResult)
    (hstale : st.cache = [] ∨ s.jwks_cache_ttl ≤ now - st.fetchedAt)
    (hr : (get_current_user s devSub token db st now net).result =
      .error (.TokenInvalid .UnknownKey)) :
    (get_current_user s devSub token db st now net).fetches = 1 := by
  obtain ⟨hc, hf⟩ := gcu_tokenInvalid_fetches s devSub token db st now net .UnknownKey hr
  rw [hf]
  refine get_jwks_fetches_one s st now net ?_ hc
  rintro ⟨h1, h2⟩
  rcases hstale with h | h
  · exact h1 h
  · exact absurd h2 (not_lt.mpr h)

/-- Witness for C5 (amended): with an expired-TTL cache, the unknown-kid
rejection happens only after one fetch. -/
theorem refresh_before_unknownKey_amended_witness :
    (get_current_user prodSettings none (some unknownKidToken) [admin1] stK1 86400
      (.success jwksK1)).result = .error (.TokenInvalid .UnknownKey) ∧
    (get_current_user prodSettings none (some unknownKidToken) [admin1] stK1 86400
      (.success jwksK1)).fetches = 1 := by
  refine ⟨by decide, refresh_before_unknownKey_amended prodSettings none
    (some unknownKidToken) [admin1] stK1 86400 (.success jwksK1)
    (Or.inr (by decide)) (by decide)⟩

/-- Counterexample to C8: with two active admins where the earlier row
was created first, the fallback returns the first row, not the
most-recently-created active admin. -/
theorem dev_fallback_not_most_recent :
    (get_current_user devSettings none none [admin1, admin2] st0 0 .failure).result =
      .ok admin1 ∧
    admin2 ∈ [admin1, admin2] ∧ admin2.role = "ADMIN" ∧ admin2.is_active = true ∧
    admin1.created_at < admin2.created_at := by decide

/-- C8 as amended: in development-bypass mode with the override header
absent or empty, resolution returns exactly the first active ADMIN user
in database row order (no ordering by creation time is applied), and
fails with `NoDevUser` iff no active admin exists; with a non-empty
override subject it fails with `NoDevUser` iff no user carries that
`cognito_user_id`. -/
theorem dev_fallback_first_admin_amended (s : Settings) (devSub : Option String)
    (token : Option Token) (db : List User) (st : JwksState) (now : Int) (net : FetchResult)
    (hd : s.auth_disabled = true) :
    ((devSub = none ∨ devSub = some "") →
      (∀ u, (get_current_user s devSub token db st now net).result = .ok u ↔
        (u.role == "ADMIN" && u.is_active) = true ∧
        ∃ l1 l2, db = l1 ++ u :: l2 ∧
          ∀ v ∈ l1, (!(v.role == "ADMIN" && v.is_active)) = true) ∧
      ((get_current_user s devSub token db st now net).result = .error .NoDevUser ↔
        ∀ v ∈ db, ¬(v.role == "ADMIN" && v.is_active) = true)) ∧
    (∀ sub, devSub = some sub → sub ≠ "" →
      ((get_current_user s devSub token db st now net).result = .error .NoDevUser ↔
        ∀ v ∈ db, ¬(v.cognito_user_id == sub) = true)) := by
  have key_ok : ∀ (o : Option User) (u : User),
      ((match o with
        | some v => ({ result := .ok v, jwksState := st, fetches := 0 } : AuthOutcome)
        | none => { result := .error .NoDevUser, jwksState := st, fetches := 0 }).result =
        .ok u) ↔ o = some u := by
    intro o u
    cases o <;> simp
  have key_err : ∀ (o : Option User),
      ((match o with
        | some v => ({ result := .ok v, jwksState := st, fetches := 0 } : AuthOutcome)
        | none => { result := .error .NoDevUser, jwksState := st, fetches := 0 }).result =
        .error .NoDevUser) ↔ o = none := by
    intro o
    cases o <;> simp
  rw [gcu_dev s devSub token db st now net hd]
  constructor
  · intro hsub
    have hdl : devLookup devSub db = db.find? (fun v => v.role == "ADMIN" && v.is_active) := by
      rcases hsub with h' | h' <;> subst h' <;> simp [devLookup]
    rw [hdl]
    constructor
    · intro u
      rw [key_ok, List.find?_eq_some]
    · rw [key_err, List.find?_eq_none]
  · intro sub hsubeq hne
    subst hsubeq
    have hdl : devLookup (some sub) db = db.find? (fun v => v.cognito_user_id == sub) := by
      simp [devLookup, hne]
    rw [hdl, key_err, List.find?_eq_none]

/-- Witness for C8 (amended): the fallback skips a leading non-admin row
and returns the first active admin; an unknown override subject fails
with `NoDevUser`. -/
theorem dev_fallback_first_admin_amended_witness :
    (get_current_user devSettings none none [inactiveUser, admin1] st0 0 .failure).result =
      .ok admin1 ∧
    (get_current_user devSettings (some "ghost") none [admin1] st0 0 .failure).result =
      .error .NoDevUser := by
  refine ⟨(((dev_fallback_first_admin_amended devSettings none none [inactiveUser, admin1]
      st0 0 .failure (by decide)).1 (Or.inl rfl)).1 admin1).mpr
      ⟨by decide, [inactiveUser], [], rfl, by decide⟩,
    ((dev_fallback_first_admin_amended devSettings (some "ghost") none [admin1]
      st0 0 .failure (by decide)).2 "ghost" rfl (by decide)).mpr (by decide)⟩

end OneSystem
